import Mathlib

/-!
Shallow embedding of `src/sqlfluff/core/parser/grammar.py`: the grammar
combinator engine of a SQL parser.  Grammars are embedded as a deep
inductive `Grammar`; the `match` methods of the combinators, together with
the scanner classmethods of `BaseGrammar` (`_code_only_sensitive_match`,
`_longest_code_only_sensitive_match`, `_look_ahead_match`,
`_bracket_sensitive_look_ahead_match`) become a family of mutually
recursive, fuel-indexed functions returning `Except PErr (result × state)`.
Python exceptions (SQLParseError, RuntimeError, NotImplementedError,
ValueError, IndexError) are `PErr` values; running out of fuel is the
distinguished `PErr.fuelOut`.

The only state of the `ParseContext` that is observable through match
results is its blacklist (the depth counter and `matching_segment` name
are diagnostics-only per the spec), so the blacklist is threaded through
every call - mirroring the single mutable context object of the source -
while the read-only dialect registry and the meta-segment enablement
configuration travel in a fixed environment `PEnv`.

External collaborators that are not defined in `grammar.py` (segments,
`MatchResult`, `trim_non_code`, `check_still_complete`, the dialect
registry, the blacklist, keyword/raw segment matchers and the
Indent/Dedent meta segment classes) are modelled from the spec; each such
definition carries a doc comment starting `Modelled from the spec:`.

Simplifications that no claim depends on: `ephemeral_name` wrapping and
the `match_wrapper`/logging decorators are not modelled (logging is
observable-only per the spec); membership tests that Python performs by
object identity (`in`, `is`, `list.index`) are modelled by structural
equality of `Grammar` values (`grammarBeq`), which coincides with
identity for the distinct matcher values used here.
-/

/-- Modelled from the spec: the external Segment capability set -
`raw_upper`, `is_code`, `is_meta`, a `type` string tag (`stype`), an
opaque position marker (one `Nat` here; `get_start_pos_marker` and
`get_end_pos_marker` both return it) and a stable object identity `sid`
(Python `id`). -/
structure Segment where
  sid : Nat
  raw_upper : String
  is_code : Bool
  is_meta : Bool
  stype : String
  pos : Nat
deriving DecidableEq

instance : Inhabited Segment := ⟨⟨0, "", false, false, "", 0⟩⟩

/-- Modelled from the spec: `get_start_pos_marker` (opaque handle). -/
def Segment.get_start_pos_marker (s : Segment) : Nat := s.pos

/-- Modelled from the spec: `get_end_pos_marker` (opaque handle). -/
def Segment.get_end_pos_marker (s : Segment) : Nat := s.pos

/-- Modelled from the spec: `MatchResult`, the pair of finite ordered
sequences `(matched_segments, unmatched_segments)`. -/
structure MatchResult where
  matched_segments : List Segment
  unmatched_segments : List Segment
deriving DecidableEq

namespace MatchResult

/-- Modelled from the spec: `from_matched(xs) = (xs, ())`. -/
def from_matched (xs : List Segment) : MatchResult := ⟨xs, []⟩

/-- Modelled from the spec: `from_unmatched(xs) = ((), xs)`. -/
def from_unmatched (xs : List Segment) : MatchResult := ⟨[], xs⟩

/-- Modelled from the spec: `from_empty() = ((), ())`. -/
def from_empty : MatchResult := ⟨[], []⟩

/-- Modelled from the spec: `is_complete()` iff `unmatched_segments` is
empty. -/
def is_complete (r : MatchResult) : Bool := r.unmatched_segments.isEmpty

/-- Modelled from the spec: truthiness of a `MatchResult` (also its
`has_match()` method): matched segments non-empty. -/
def has_match (r : MatchResult) : Bool := !r.matched_segments.isEmpty

/-- Modelled from the spec: `len(raw_matched())`, the total character
length of the matched segments (tie-break for "longest"). -/
def raw_matched_len (r : MatchResult) : Nat :=
  (r.matched_segments.map (fun s => s.raw_upper.length)).sum

/-- Modelled from the spec: `__len__`, the count of matched segments. -/
def mlen (r : MatchResult) : Nat := r.matched_segments.length

/-- Modelled from the spec: `all_segments()` = matched ++ unmatched. -/
def all_segments (r : MatchResult) : List Segment :=
  r.matched_segments ++ r.unmatched_segments

end MatchResult

/-- The deep embedding of the concrete grammar combinators of
`grammar.py`, carrying exactly the configuration each one reads at match
time.  `tok`/`tokType` model the external keyword / typed raw-segment
matcher classes resolved through the dialect; `metaSeg` models an
Indent/Dedent placeholder used as a `Sequence` element. -/
inductive Grammar where
  | tok (s : String) (optional : Bool)
  | tokType (t : String) (optional : Bool)
  | ref (name : String) (optional : Bool)
  | anything (optional : Bool)
  | nothing (optional : Bool)
  | anyNum (elems : List Grammar) (minTimes : Nat) (maxTimes : Option Nat)
      (exclude : Option Grammar) (allowGaps : Bool) (optional : Bool)
  | sequence (elems : List Grammar) (allowGaps : Bool) (optional : Bool)
  | delimited (elems : List Grammar) (delim : Grammar) (allowTrailing : Bool)
      (term : Option Grammar) (minDelims : Option Nat) (allowGaps : Bool) (optional : Bool)
  | greedyUntil (elems : List Grammar) (enforceWs : Bool) (allowGaps : Bool) (optional : Bool)
  | startsWith (target : Grammar) (term : Option Grammar) (includeTerm : Bool)
      (enforceWs : Bool) (allowGaps : Bool) (optional : Bool)
  | bracketed (elems : List Grammar) (square : Bool) (allowGaps : Bool) (optional : Bool)
  | metaSeg (kind : String) (optional : Bool)

mutual

/-- Structural (= Python object identity, for the distinct values used
here) equality of grammars; used for the source's `in` / `is` /
`list.index` tests on matchers. -/
def grammarBeq : Grammar → Grammar → Bool
  | .tok s o, .tok s' o' => s == s' && o == o'
  | .tokType t o, .tokType t' o' => t == t' && o == o'
  | .ref n o, .ref n' o' => n == n' && o == o'
  | .anything o, .anything o' => o == o'
  | .nothing o, .nothing o' => o == o'
  | .anyNum es m mx ex g o, .anyNum es' m' mx' ex' g' o' =>
      grammarListBeq es es' && m == m' && mx == mx' && grammarOptBeq ex ex' && g == g' && o == o'
  | .sequence es g o, .sequence es' g' o' => grammarListBeq es es' && g == g' && o == o'
  | .delimited es dl at' tm md g o, .delimited es' dl' at2 tm' md' g' o' =>
      grammarListBeq es es' && grammarBeq dl dl' && at' == at2 && grammarOptBeq tm tm' &&
        md == md' && g == g' && o == o'
  | .greedyUntil es e g o, .greedyUntil es' e' g' o' =>
      grammarListBeq es es' && e == e' && g == g' && o == o'
  | .startsWith t tm it e g o, .startsWith t' tm' it' e' g' o' =>
      grammarBeq t t' && grammarOptBeq tm tm' && it == it' && e == e' && g == g' && o == o'
  | .bracketed es sq g o, .bracketed es' sq' g' o' =>
      grammarListBeq es es' && sq == sq' && g == g' && o == o'
  | .metaSeg k o, .metaSeg k' o' => k == k' && o == o'
  | _, _ => false

/-- Elementwise `grammarBeq` on lists. -/
def grammarListBeq : List Grammar → List Grammar → Bool
  | [], [] => true
  | a :: as, b :: bs => grammarBeq a b && grammarListBeq as bs
  | _, _ => false

/-- `grammarBeq` lifted to `Option`. -/
def grammarOptBeq : Option Grammar → Option Grammar → Bool
  | none, none => true
  | some a, some b => grammarBeq a b
  | _, _ => false

end

/-- `is_optional` (grammar.py lines 112-117 and 759-765): the configured
flag, and for AnyNumberOf additionally `min_times == 0`. -/
def Grammar.is_optional : Grammar → Bool
  | .tok _ o => o
  | .tokType _ o => o
  | .ref _ o => o
  | .anything o => o
  | .nothing o => o
  | .anyNum _ minT _ _ _ o => o || minT == 0
  | .sequence _ _ o => o
  | .delimited _ _ _ _ _ _ o => o
  | .greedyUntil _ _ _ o => o
  | .startsWith _ _ _ _ _ o => o
  | .bracketed _ _ _ o => o
  | .metaSeg _ o => o

/-- `is_meta` (grammar.py line 26): false on grammars, true on
indent/dedent placeholders. -/
def Grammar.is_meta : Grammar → Bool
  | .metaSeg _ _ => true
  | _ => false

/-- The kind tag of a meta placeholder element. -/
def Grammar.metaKind : Grammar → String
  | .metaSeg k _ => k
  | _ => ""

/-- Python exceptions raised by the engine, plus the distinguished
fuel-exhaustion marker of the embedding. -/
inductive PErr where
  | sqlParse (msg : String) (seg : Option Segment)
  | runtimeErr (msg : String)
  | notImplementedErr
  | valueErr (msg : String)
  | indexErr
  | typeErr
  | unknownRefErr (name : String)
  | fuelOut
deriving DecidableEq

deriving instance DecidableEq for Except

abbrev Res (α : Type) := Except PErr α

/-- Extract the error of a result, if any (used to state theorems about
raised exceptions without needing decidable equality of payload types). -/
def errOf {α : Type} : Res α → Option PErr
  | .error e => some e
  | .ok _ => none

/-- Modelled from the spec: the read-only dialect registry mapping names
to matchers. -/
structure Dialect where
  refs : List (String × Grammar)

/-- Modelled from the spec: `dialect.ref(name)` lookup (the raising
behaviour is in `dialectGet`). -/
def Dialect.ref (d : Dialect) (n : String) : Option Grammar :=
  (d.refs.find? (fun p => p.1 == n)).map Prod.snd

/-- Modelled from the spec: `dialect.ref` must raise if the name is
unknown. -/
def dialectGet (d : Dialect) (n : String) : Res Grammar :=
  match d.ref n with
  | some g => Except.ok g
  | none => Except.error (PErr.unknownRefErr n)

/-- Modelled from the spec: the negative-memoization blacklist, a set of
(referent name, fingerprint of segment identities) pairs. -/
abbrev Blacklist := List (String × List Nat)

/-- Modelled from the spec: `blacklist.check(name, fingerprint)`. -/
def blacklistCheck (bl : Blacklist) (n : String) (fp : List Nat) : Bool :=
  bl.any (fun e => e.1 == n && e.2 == fp)

/-- Modelled from the spec: `blacklist.mark(name, fingerprint)` - entries
are only ever added, never removed. -/
def blacklistMark (bl : Blacklist) (n : String) (fp : List Nat) : Blacklist :=
  (n, fp) :: bl

/-- The read-only per-parse environment: the dialect, and the set of
enabled meta-segment kinds (the spec: meta elements are emitted only when
"enabled in the current context"). -/
structure PEnv where
  dialect : Dialect
  enabledMeta : List String

/-- Modelled from the spec: `elem.is_enabled(parse_context)` for a meta
placeholder element. -/
def metaEnabled (env : PEnv) (g : Grammar) : Bool :=
  env.enabledMeta.contains g.metaKind

/-- Modelled from the spec: instantiating a meta placeholder
(`elem(pos_marker=p)`) as a fresh meta segment. -/
def mkMetaSeg (kind : String) (p : Nat) : Segment :=
  ⟨0, "", false, true, kind, p⟩

/-- Modelled from the spec: the Indent meta segment. -/
def mkIndent (p : Nat) : Segment := mkMetaSeg "indent" p

/-- Modelled from the spec: the Dedent meta segment. -/
def mkDedent (p : Nat) : Segment := mkMetaSeg "dedent" p

/-- Modelled from the spec: `trim_non_code` splits a sequence into
(leading non-code, middle, trailing non-code). -/
def trim_non_code (segs : List Segment) : List Segment × List Segment × List Segment :=
  let preNc := segs.takeWhile (fun s => !s.is_code)
  let rest := segs.dropWhile (fun s => !s.is_code)
  let postNc := (rest.reverse.takeWhile (fun s => !s.is_code)).reverse
  let mid := (rest.reverse.dropWhile (fun s => !s.is_code)).reverse
  (preNc, mid, postNc)

/-- Raw text of a segment list, joined. -/
def joinedRaw (l : List Segment) : String :=
  String.join (l.map (fun s => s.raw_upper))

/-- Modelled from the spec: `check_still_complete` asserts that
matched + unmatched still carries the full input text ("assert
matched+unmatched preserves input identity"). -/
def check_still_complete (initial matched unmatched : List Segment) : Bool :=
  joinedRaw initial == joinedRaw (matched ++ unmatched)

/-- Modelled from the spec: the match behaviour of a keyword / raw
segment class: it matches one segment whose `raw_upper` equals its
string. -/
def tokMatch (s : String) (segs : List Segment) : MatchResult :=
  match segs with
  | [] => MatchResult.from_unmatched []
  | h :: t => if h.raw_upper == s then ⟨[h], t⟩ else MatchResult.from_unmatched segs

/-- Modelled from the spec: the match behaviour of a typed segment class
("a segment type (class token) passes through"): it matches one segment
of its type. -/
def tokTypeMatch (t : String) (segs : List Segment) : MatchResult :=
  match segs with
  | [] => MatchResult.from_unmatched []
  | h :: tl => if h.stype == t then ⟨[h], tl⟩ else MatchResult.from_unmatched segs

/-- Python `matcher in matchers` on grammars (object identity in the
source; structural equality here). -/
def grammarListContains (l : List Grammar) (g : Grammar) : Bool :=
  l.any (fun x => grammarBeq x g)

/-- Like `grammarListContains` but for an optional matcher (Python's
`None in l` is false). -/
def optMem (mo : Option Grammar) (l : List Grammar) : Bool :=
  match mo with
  | some g => grammarListContains l g
  | none => false

/-- Python `m is target` for an optional matcher against an optional
target (a grammar is never `is`-identical to `None`). -/
def optIs (mo target : Option Grammar) : Bool :=
  match mo, target with
  | some m, some t => grammarBeq m t
  | _, _ => false

/-- Python `matchers.index(m)` (first index of an equal element; length if
absent - `m` always comes from the list in the source). -/
def grammarIdxFrom : List Grammar → Grammar → Nat
  | [], _ => 0
  | x :: xs, g => if grammarBeq x g then 0 else grammarIdxFrom xs g + 1

/-- `matchers.index` lifted to the optional matcher returned by the
scanners. -/
def grammarIndex (ms : List Grammar) : Option Grammar → Nat
  | none => ms.length
  | some g => grammarIdxFrom ms g

/-- grammar.py lines 356-364: absorb the trailing non-code of the
`pre_segments` (given reversed) into the front of the matched segments. -/
def absorbPreRev : List Segment → List Segment → List Segment × List Segment
  | [], matched => ([], matched)
  | s :: rest, matched =>
    if s.is_code then ((s :: rest).reverse, matched)
    else absorbPreRev rest (s :: matched)

/-- First index of a string in the upper-case raw buffer
(`str_buff.index(simple_option)`, grammar.py line 309). -/
def strIdxOf : List String → String → Option Nat
  | [], _ => none
  | x :: xs, s => if x == s then some 0 else (strIdxOf xs s).map (fun n => n + 1)

/-- grammar.py lines 300-313: the simple-matcher queue - one entry per
(simple matcher, advertised option found in the buffer), carrying the
first buffer index of the option. -/
def buildMatchQueue : List (Grammar × List String) → List String → List (Grammar × Nat)
  | [], _ => []
  | (g, opts) :: rest, strBuff =>
      (opts.filterMap (fun o => (strIdxOf strBuff o).map (fun i => (g, i)))) ++
        buildMatchQueue rest strBuff

/-- Stable insertion (after existing entries with index ≤) for the
match-queue sort. -/
def insertStable (e : Grammar × Nat) : List (Grammar × Nat) → List (Grammar × Nat)
  | [] => [e]
  | x :: xs => if x.2 ≤ e.2 then x :: insertStable e xs else e :: x :: xs

/-- grammar.py line 317: `sorted(match_queue, key=pos)` - a stable sort by
buffer index. -/
def stableSortQ (l : List (Grammar × Nat)) : List (Grammar × Nat) :=
  l.foldl (fun acc e => insertStable e acc) []

/-- The first meaningful (non-whitespace-only) element of the raw buffer
(grammar.py lines 795-801). -/
def firstNonWs : List String → Option String
  | [] => none
  | x :: xs => if x.trim == "" then firstNonWs xs else some x

/-- grammar.py lines 788-814: should a simple element be kept by
`_prune_options`?  Iterates the advertised options; `false` is the
for-else prune. -/
def pruneSimpleKeep (strBuff : List String) : List String → Res Bool
  | [] => Except.ok false
  | o :: rest =>
    if strBuff.contains o then
      if o.trim == "" then Except.ok true
      else
        match firstNonWs strBuff with
        | none => Except.error (PErr.runtimeErr "This shouldn't happen.")
        | some fe =>
          if fe == o then Except.ok true else pruneSimpleKeep strBuff rest
    else pruneSimpleKeep strBuff rest

/-- grammar.py lines 1012-1025: does the matched terminator start (after
metas) with whitespace/newline?  IndexError if it is all meta. -/
def firstNonMetaIsWs : List Segment → Res Bool
  | [] => Except.error PErr.indexErr
  | s :: rest =>
    if s.is_meta then firstNonMetaIsWs rest
    else Except.ok (s.stype == "whitespace" || s.stype == "newline")

/-- grammar.py lines 1028-1044 (on the reversed pre-buffer): walking
backwards over metas, is the nearest non-meta whitespace/newline, or do we
run off the start (allowed)? -/
def preNonMetaIsWsOrStartRev : List Segment → Bool
  | [] => true
  | s :: rest =>
    if s.is_meta then preNonMetaIsWsOrStartRev rest
    else s.stype == "whitespace" || s.stype == "newline"

/-- grammar.py lines 420-440: when a non-simple candidate and a best
simple candidate both exist in `_look_ahead_match`, should the non-simple
one win?  (Shorter pre wins; then longer match; then earlier index in the
original matcher list.) -/
def lookAheadWinner (ms : List Grammar) (preSegBuf : List Segment) (mat : MatchResult)
    (mo : Option Grammar) (bestPre : List Segment) (bestMat : MatchResult)
    (bestG : Grammar) : Bool :=
  let pre0 := preSegBuf.length
  let pre1 := bestPre.length
  let l0 := mat.mlen
  let l1 := bestMat.mlen
  let i0 := grammarIndex ms mo
  let i1 := grammarIndex ms (some bestG)
  decide (pre0 < pre1) || (pre0 == pre1 && decide (l0 > l1)) ||
    (pre0 == pre1 && l0 == l1 && decide (i0 < i1))

/-- Python truthiness check `self.min_delimiters and len(delimiters) <
self.min_delimiters` (grammar.py lines 1359-1362 and 1399): `None` and
`0` are both falsy. -/
def minDelimsShort (minD : Option Nat) (n : Nat) : Bool :=
  decide (minD.getD 0 ≠ 0) && decide (n < minD.getD 0)

/-- grammar.py lines 1270-1273: `min_delimiters is None or len(delimiters)
>= min_delimiters` (an `is None` test, not truthiness). -/
def minDelimsOkTrailing (minD : Option Nat) (n : Nat) : Bool :=
  match minD with
  | none => true
  | some k => decide (n ≥ k)

mutual

/-- The dispatcher over the `match` methods of all combinators in
grammar.py: Ref (lines 649-692), Anything (711-717), Nothing (727-733),
AnyNumberOf (882-941), Sequence (1101-1192), Delimited (1234-1446),
GreedyUntil (972-982), StartsWith (1468-1515), Bracketed (1554-1662);
`tok`/`tokType` are the modelled external segment-class matchers. -/
def matchG (env : PEnv) (fuel : Nat) (g : Grammar) (segs : List Segment) (bl : Blacklist) :
    Res (MatchResult × Blacklist) :=
  match fuel with
  | 0 => Except.error PErr.fuelOut
  | Nat.succ f =>
    match g with
    | .tok s _ => Except.ok (tokMatch s segs, bl)
    | .tokType t _ => Except.ok (tokTypeMatch t segs, bl)
    | .ref n _ => do
      let elem ← dialectGet env.dialect n
      let fp := segs.map Segment.sid
      if blacklistCheck bl n fp then
        Except.ok (MatchResult.from_unmatched segs, bl)
      else do
        let (resp, bl1) ← matchG env f elem segs bl
        if resp.has_match then Except.ok (resp, bl1)
        else Except.ok (resp, blacklistMark bl1 n fp)
    | .anything _ => Except.ok (MatchResult.from_matched segs, bl)
    | .nothing _ => Except.ok (MatchResult.from_unmatched segs, bl)
    | .anyNum elems minT maxT exclude allowGaps _ =>
      (match exclude with
      | some ex => do
        let (em, bl1) ← matchG env f ex segs bl
        if em.has_match then Except.ok (MatchResult.from_unmatched segs, bl1)
        else any_number_loop env f elems minT (maxT.getD 0) allowGaps [] segs 0 bl1
      | none => any_number_loop env f elems minT (maxT.getD 0) allowGaps [] segs 0 bl)
    | .sequence elems allowGaps _ =>
      sequence_loop env f segs elems allowGaps [] segs bl
    | .delimited elems delim allowTrailing termO minD allowGaps _ =>
      if segs.isEmpty then Except.ok (MatchResult.from_empty, bl)
      else delimited_loop env f segs elems delim termO allowTrailing minD allowGaps [] 0 segs bl
    | .greedyUntil elems enforceWs allowGaps _ =>
      greedy_loop env f segs elems enforceWs false allowGaps [] segs bl
    | .startsWith target termO includeTerm enforceWs allowGaps _ =>
      if allowGaps then
        let buff := segs.dropWhile (fun s => !s.is_code)
        if buff.isEmpty then Except.ok (MatchResult.from_unmatched segs, bl)
        else do
          let (tm, bl1) ← matchG env f target buff bl
          if tm.has_match then do
            let (gm, bl2) ←
              (match termO with
              | none => Except.ok (MatchResult.from_matched tm.unmatched_segments, bl1)
              | some t =>
                greedy_loop env f tm.unmatched_segments [t] enforceWs includeTerm allowGaps
                  [] tm.unmatched_segments bl1)
            Except.ok
              (⟨tm.matched_segments ++ gm.matched_segments, gm.unmatched_segments⟩, bl2)
          else Except.ok (MatchResult.from_unmatched segs, bl1)
      else Except.error PErr.notImplementedErr
    | .bracketed elems square allowGaps opt => do
      let sbName := if square then "StartSquareBracketSegment" else "StartBracketSegment"
      let ebName := if square then "EndSquareBracketSegment" else "EndBracketSegment"
      let (startM, bl1) ← code_only_sensitive_match env f (.ref sbName false) segs bl allowGaps
      if !startM.has_match then Except.ok (MatchResult.from_unmatched segs, bl1)
      else do
        let (contentSegs, endM, _, bl2) ←
          bracket_sensitive_look_ahead_match env f [Grammar.ref ebName false]
            startM.unmatched_segments bl1 allowGaps
        if !endM.has_match then
          Except.error
            (PErr.sqlParse "Couldn't find closing bracket for opening bracket." none)
        else
          if contentSegs.isEmpty then
            if elems.isEmpty || elems.all Grammar.is_optional then
              Except.ok
                (⟨startM.matched_segments ++ endM.matched_segments,
                  endM.unmatched_segments⟩, bl2)
            else Except.ok (MatchResult.from_unmatched segs, bl2)
          else
            let (preNc, contentMid, postNc) :=
              if allowGaps then trim_non_code contentSegs else ([], contentSegs, [])
            if contentMid.isEmpty then
              if elems.isEmpty || (elems.all Grammar.is_optional && allowGaps) then
                Except.ok
                  (⟨startM.matched_segments ++ preNc ++ postNc ++ endM.matched_segments,
                    endM.unmatched_segments⟩, bl2)
              else Except.ok (MatchResult.from_unmatched segs, bl2)
            else do
              let (contentMatch, bl3) ←
                matchG env f (.sequence elems allowGaps opt) contentMid bl2
              if contentMatch.is_complete then
                match contentMatch.matched_segments with
                | [] => Except.error PErr.indexErr
                | m0 :: _ =>
                  let mLast := (contentMatch.matched_segments.getLast?).getD m0
                  Except.ok
                    (⟨startM.matched_segments ++ preNc ++
                        [mkIndent m0.get_start_pos_marker] ++
                        contentMatch.matched_segments ++
                        [mkDedent mLast.get_end_pos_marker] ++ postNc ++
                        endM.matched_segments,
                      endM.unmatched_segments⟩, bl3)
              else Except.ok (MatchResult.from_unmatched segs, bl3)
    | .metaSeg _ _ => Except.error PErr.typeErr
termination_by structural fuel

/-- `simple(parse_context)` for every combinator: BaseGrammar default
`False` (line 133), Ref delegating through the dialect (613-620),
AnyNumberOf/Delimited as the union over all elements (746-757 and
1220-1232), Sequence up to the first non-optional element (1082-1099),
StartsWith via its target (1461-1466), Bracketed via its start bracket
(1547-1552). -/
def simpleG (env : PEnv) (fuel : Nat) (g : Grammar) : Res (Option (List String)) :=
  match fuel with
  | 0 => Except.error PErr.fuelOut
  | Nat.succ f =>
    match g with
    | .tok s _ => Except.ok (some [s])
    | .tokType _ _ => Except.ok none
    | .ref n _ => do
      let e ← dialectGet env.dialect n
      simpleG env f e
    | .anything _ => Except.ok none
    | .nothing _ => Except.ok none
    | .anyNum elems _ _ _ _ _ => simpleConcatAll env f elems
    | .sequence elems _ _ => simpleSeqAcc env f elems []
    | .delimited elems _ _ _ _ _ _ => simpleConcatAll env f elems
    | .greedyUntil _ _ _ _ => Except.ok none
    | .startsWith target _ _ _ _ _ => simpleG env f target
    | .bracketed _ square _ _ => do
      let e ← dialectGet env.dialect
        (if square then "StartSquareBracketSegment" else "StartBracketSegment")
      simpleG env f e
    | .metaSeg _ _ => Except.ok none
termination_by structural fuel

/-- The concatenation of the simple sets of a list of elements; `none` as
soon as any element is non-simple (AnyNumberOf / Delimited `simple`). -/
def simpleConcatAll (env : PEnv) (fuel : Nat) (gs : List Grammar) :
    Res (Option (List String)) :=
  match fuel with
  | 0 => Except.error PErr.fuelOut
  | Nat.succ f =>
    match gs with
    | [] => Except.ok (some [])
    | g :: rest => do
      let s ← simpleG env f g
      match s with
      | none => Except.ok none
      | some xs => do
        let r ← simpleConcatAll env f rest
        match r with
        | none => Except.ok none
        | some ys => Except.ok (some (xs ++ ys))
termination_by structural fuel

/-- Sequence `simple`: accumulate elements' simple sets up to and
including the first non-optional element. -/
def simpleSeqAcc (env : PEnv) (fuel : Nat) (gs : List Grammar) (acc : List String) :
    Res (Option (List String)) :=
  match fuel with
  | 0 => Except.error PErr.fuelOut
  | Nat.succ f =>
    match gs with
    | [] => Except.ok (some acc)
    | g :: rest => do
      let s ← simpleG env f g
      match s with
      | none => Except.ok none
      | some xs =>
        if g.is_optional then simpleSeqAcc env f rest (acc ++ xs)
        else Except.ok (some (acc ++ xs))
termination_by structural fuel

/-- `_code_only_sensitive_match` (grammar.py lines 135-180): trim leading
and trailing non-code when gaps are allowed, match the middle, reattach. -/
def code_only_sensitive_match (env : PEnv) (fuel : Nat) (g : Grammar) (segs : List Segment)
    (bl : Blacklist) (allowGaps : Bool) : Res (MatchResult × Blacklist) :=
  match fuel with
  | 0 => Except.error PErr.fuelOut
  | Nat.succ f =>
    if allowGaps then
      let preWs := segs.takeWhile (fun s => !s.is_code)
      let buff1 := segs.dropWhile (fun s => !s.is_code)
      if buff1.isEmpty then Except.ok (MatchResult.from_unmatched segs, bl)
      else
        let postWs := (buff1.reverse.takeWhile (fun s => !s.is_code)).reverse
        let buff2 := (buff1.reverse.dropWhile (fun s => !s.is_code)).reverse
        if buff2.isEmpty then Except.ok (MatchResult.from_unmatched segs, bl)
        else do
          let (m, bl1) ← matchG env f g buff2 bl
          if m.is_complete then
            Except.ok
              (MatchResult.from_matched (preWs ++ m.matched_segments ++ postWs), bl1)
          else if m.has_match then
            Except.ok
              (⟨preWs ++ m.matched_segments, m.unmatched_segments ++ postWs⟩, bl1)
          else Except.ok (MatchResult.from_unmatched segs, bl1)
    else matchG env f g segs bl
termination_by structural fuel

/-- `_longest_code_only_sensitive_match` (grammar.py lines 182-235): the
empty-input shortcut, then the iteration `longest_loop`. -/
def longest_code_only_sensitive_match (env : PEnv) (fuel : Nat) (ms : List Grammar)
    (segs : List Segment) (bl : Blacklist) (allowGaps : Bool) :
    Res (MatchResult × Option Grammar × Blacklist) :=
  match fuel with
  | 0 => Except.error PErr.fuelOut
  | Nat.succ f =>
    if segs.isEmpty then Except.ok (MatchResult.from_empty, none, bl)
    else longest_loop env f ms segs bl allowGaps none
termination_by structural fuel

/-- The matcher iteration of `_longest_code_only_sensitive_match`: first
complete match returns immediately; otherwise keep the longest (first on
ties) partial. -/
def longest_loop (env : PEnv) (fuel : Nat) (ms : List Grammar) (segs : List Segment)
    (bl : Blacklist) (allowGaps : Bool) (best : Option (MatchResult × Grammar)) :
    Res (MatchResult × Option Grammar × Blacklist) :=
  match fuel with
  | 0 => Except.error PErr.fuelOut
  | Nat.succ f =>
    match ms with
    | [] =>
      (match best with
      | some (r, g) => Except.ok (r, some g, bl)
      | none => Except.ok (MatchResult.from_unmatched segs, none, bl))
    | m :: rest => do
      let (rm, bl1) ← code_only_sensitive_match env f m segs bl allowGaps
      if rm.is_complete then Except.ok (rm, some m, bl1)
      else if rm.has_match then
        let best' :=
          match best with
          | some (br, bg) => if rm.mlen > br.mlen then some (rm, m) else some (br, bg)
          | none => some (rm, m)
        longest_loop env f rest segs bl1 allowGaps best'
      else longest_loop env f rest segs bl1 allowGaps best
termination_by structural fuel

/-- `_look_ahead_match` (grammar.py lines 237-455): the simple-matcher
hash fast path, then (when non-simple matchers exist) the position-by-
position slow loop.  Returns `(pre_segments, match, matcher)`. -/
def look_ahead_match (env : PEnv) (fuel : Nat) (ms : List Grammar) (segs : List Segment)
    (bl : Blacklist) (allowGaps : Bool) :
    Res (List Segment × MatchResult × Option Grammar × Blacklist) :=
  match fuel with
  | 0 => Except.error PErr.fuelOut
  | Nat.succ f =>
    if segs.isEmpty then Except.ok ([], MatchResult.from_empty, none, bl)
    else do
      let (simpleInfo, nonSimple) ← partitionSimple env f ms
      let strBuff := segs.map (fun s => s.raw_upper)
      let popQueue := (stableSortQ (buildMatchQueue simpleInfo strBuff)).reverse
      let (bestSimple, bl1) ← look_simple_loop env f popQueue segs allowGaps none bl
      if nonSimple.isEmpty then
        (match bestSimple with
        | some (p, m, mg) => Except.ok (p, m, some mg, bl1)
        | none => Except.ok ([], MatchResult.from_unmatched segs, none, bl1))
      else look_slow_loop env f segs ms nonSimple bestSimple [] segs bl1 allowGaps
termination_by structural fuel

/-- grammar.py lines 278-281: split the matchers into simple (with their
advertised option strings) and non-simple, preserving order. -/
def partitionSimple (env : PEnv) (fuel : Nat) (ms : List Grammar) :
    Res (List (Grammar × List String) × List Grammar) :=
  match fuel with
  | 0 => Except.error PErr.fuelOut
  | Nat.succ f =>
    match ms with
    | [] => Except.ok ([], [])
    | m :: rest => do
      let s ← simpleG env f m
      let (si, ns) ← partitionSimple env f rest
      match s with
      | some opts => Except.ok ((m, opts) :: si, ns)
      | none => Except.ok (si, m :: ns)
termination_by structural fuel

/-- grammar.py lines 330-371: pop the sorted queue from the end (so the
earliest buffer index, and on ties the earliest matcher, is processed
last), match each candidate, absorb adjacent non-code when gaps are
allowed, and keep the last successful candidate as best. -/
def look_simple_loop (env : PEnv) (fuel : Nat) (popQueue : List (Grammar × Nat))
    (segs : List Segment) (allowGaps : Bool)
    (best : Option (List Segment × MatchResult × Grammar)) (bl : Blacklist) :
    Res (Option (List Segment × MatchResult × Grammar) × Blacklist) :=
  match fuel with
  | 0 => Except.error PErr.fuelOut
  | Nat.succ f =>
    match popQueue with
    | [] => Except.ok (best, bl)
    | (g, idx) :: rest => do
      let (m, bl1) ← matchG env f g (segs.drop idx) bl
      if !m.has_match then look_simple_loop env f rest segs allowGaps best bl1
      else
        let preSegs := segs.take idx
        let (pre2, m2) :=
          if allowGaps then
            let (p2, newMatched) := absorbPreRev preSegs.reverse m.matched_segments
            (p2, (⟨newMatched, m.unmatched_segments⟩ : MatchResult))
          else (preSegs, m)
        let m3 :=
          if allowGaps && m2.unmatched_segments.all (fun e => !e.is_code) then
            MatchResult.from_matched (m2.matched_segments ++ m2.unmatched_segments)
          else m2
        look_simple_loop env f rest segs allowGaps (some (pre2, m3, g)) bl1
termination_by structural fuel

/-- grammar.py lines 396-455: the non-simple slow loop of
`_look_ahead_match` - at each position run the longest match over the
non-simple matchers, compare any hit against the best simple candidate
(`lookAheadWinner`), early-exit once the scan passes the simple
candidate's start, else advance by one segment (plus following non-code
when gaps are allowed). -/
def look_slow_loop (env : PEnv) (fuel : Nat) (origSegs : List Segment) (ms : List Grammar)
    (nonSimple : List Grammar) (bestSimple : Option (List Segment × MatchResult × Grammar))
    (preBuf segBuf : List Segment) (bl : Blacklist) (allowGaps : Bool) :
    Res (List Segment × MatchResult × Option Grammar × Blacklist) :=
  match fuel with
  | 0 => Except.error PErr.fuelOut
  | Nat.succ f =>
    if segBuf.isEmpty then Except.ok ([], MatchResult.from_unmatched origSegs, none, bl)
    else do
      let (mat, mo, bl1) ←
        longest_code_only_sensitive_match env f nonSimple segBuf bl allowGaps
      if mat.has_match then
        (match bestSimple with
        | none => Except.ok (preBuf, mat, mo, bl1)
        | some (bp, bm, bg) =>
          if lookAheadWinner ms preBuf mat mo bp bm bg then Except.ok (preBuf, mat, mo, bl1)
          else Except.ok (bp, bm, some bg, bl1))
      else
        match bestSimple with
        | some (bp, bm, bg) =>
          if preBuf.length ≥ bp.length then Except.ok (bp, bm, some bg, bl1)
          else
            let preA := preBuf ++ segBuf.take 1
            let step1 := segBuf.drop 1
            let preB :=
              if allowGaps then preA ++ step1.takeWhile (fun s => !s.is_code) else preA
            let segB :=
              if allowGaps then step1.dropWhile (fun s => !s.is_code) else step1
            look_slow_loop env f origSegs ms nonSimple bestSimple preB segB bl1 allowGaps
        | none =>
          let preA := preBuf ++ segBuf.take 1
          let step1 := segBuf.drop 1
          let preB :=
            if allowGaps then preA ++ step1.takeWhile (fun s => !s.is_code) else preA
          let segB :=
            if allowGaps then step1.dropWhile (fun s => !s.is_code) else step1
          look_slow_loop env f origSegs ms nonSimple bestSimple preB segB bl1 allowGaps
termination_by structural fuel

/-- `_bracket_sensitive_look_ahead_match` (grammar.py lines 457-591):
append the dialect's bracket matchers, then run `bracket_loop`. -/
def bracket_sensitive_look_ahead_match (env : PEnv) (fuel : Nat) (ms : List Grammar)
    (segs : List Segment) (bl : Blacklist) (allowGaps : Bool) :
    Res (List Segment × MatchResult × Option Grammar × Blacklist) :=
  match fuel with
  | 0 => Except.error PErr.fuelOut
  | Nat.succ f =>
    if segs.isEmpty then Except.ok ([], MatchResult.from_unmatched segs, none, bl)
    else do
      let sb1 ← dialectGet env.dialect "StartBracketSegment"
      let sb2 ← dialectGet env.dialect "StartSquareBracketSegment"
      let eb1 ← dialectGet env.dialect "EndBracketSegment"
      let eb2 ← dialectGet env.dialect "EndSquareBracketSegment"
      bracket_loop env f segs (ms ++ [sb1, sb2] ++ [eb1, eb2]) [sb1, sb2] [eb1, eb2]
        [] [] segs bl allowGaps
termination_by structural fuel

/-- The scanning loop of `_bracket_sensitive_look_ahead_match`
(grammar.py lines 499-591).  The bracket stack has its top at the head
(Python appends and pops at the end of its list). -/
def bracket_loop (env : PEnv) (fuel : Nat) (origSegs : List Segment)
    (allMs sbs ebs : List Grammar) (preBuf stack buff : List Segment) (bl : Blacklist)
    (allowGaps : Bool) : Res (List Segment × MatchResult × Option Grammar × Blacklist) :=
  match fuel with
  | 0 => Except.error PErr.fuelOut
  | Nat.succ f =>
    if buff.isEmpty then
      match stack with
      | top :: _ =>
        Except.error
          (PErr.sqlParse "Couldn't find closing bracket for opening bracket." (some top))
      | [] => Except.ok ([], MatchResult.from_unmatched origSegs, none, bl)
    else
      match stack with
      | top :: stackRest => do
        let (pre, m, mo, bl1) ← look_ahead_match env f (sbs ++ ebs) buff bl allowGaps
        if m.has_match then
          if optMem mo sbs then
            bracket_loop env f origSegs allMs sbs ebs
              (preBuf ++ pre ++ m.matched_segments)
              (m.matched_segments.headI :: top :: stackRest) m.unmatched_segments bl1
              allowGaps
          else if optMem mo ebs then
            bracket_loop env f origSegs allMs sbs ebs
              (preBuf ++ pre ++ m.matched_segments) stackRest m.unmatched_segments bl1
              allowGaps
          else Except.error (PErr.runtimeErr "I don't know how we get here?!")
        else
          Except.error
            (PErr.sqlParse "Couldn't find closing bracket for opening bracket." (some top))
      | [] => do
        let (pre, m, mo, bl1) ← look_ahead_match env f allMs buff bl allowGaps
        if m.has_match then
          if optMem mo sbs then
            bracket_loop env f origSegs allMs sbs ebs
              (preBuf ++ pre ++ m.matched_segments) [m.matched_segments.headI]
              m.unmatched_segments bl1 allowGaps
          else if optMem mo ebs then
            Except.error
              (PErr.sqlParse "Found unexpected end bracket!"
                (some m.matched_segments.headI))
          else Except.ok (preBuf ++ pre, m, mo, bl1)
        else Except.ok ([], MatchResult.from_unmatched origSegs, none, bl1)
termination_by structural fuel

/-- The repetition loop of `AnyNumberOf.match` (grammar.py lines
896-941).  `maxT` is the Python-truthy reading of `max_times` (`None` and
`0` are both 0 = no bound). -/
def any_number_loop (env : PEnv) (fuel : Nat) (elems : List Grammar) (minT maxT : Nat)
    (allowGaps : Bool) (acc unm : List Segment) (n : Nat) (bl : Blacklist) :
    Res (MatchResult × Blacklist) :=
  match fuel with
  | 0 => Except.error PErr.fuelOut
  | Nat.succ f =>
    if maxT ≠ 0 ∧ n ≥ maxT then Except.ok (⟨acc, unm⟩, bl)
    else if unm.isEmpty then
      if n ≥ minT then Except.ok (⟨acc, unm⟩, bl)
      else Except.ok (MatchResult.from_unmatched unm, bl)
    else
      let preSeg := if n > 0 && allowGaps then (trim_non_code unm).1 else []
      let unm1 :=
        if n > 0 && allowGaps then (trim_non_code unm).2.1 ++ (trim_non_code unm).2.2
        else unm
      do
      let (m, bl1) ← match_once env f elems unm1 bl
      if m.has_match then
        any_number_loop env f elems minT maxT allowGaps
          (acc ++ preSeg ++ m.matched_segments) m.unmatched_segments (n + 1) bl1
      else
        if n ≥ minT then Except.ok (⟨acc, preSeg ++ unm1⟩, bl1)
        else Except.ok (MatchResult.from_unmatched unm1, bl1)
termination_by structural fuel

/-- `_match_once` (grammar.py lines 831-880): prune the options by their
simple sets, then iterate. -/
def match_once (env : PEnv) (fuel : Nat) (elems : List Grammar) (segs : List Segment)
    (bl : Blacklist) : Res (MatchResult × Blacklist) :=
  match fuel with
  | 0 => Except.error PErr.fuelOut
  | Nat.succ f => do
    let strBuff := segs.map (fun s => s.raw_upper)
    let opts ← prune_options env f elems strBuff
    if opts.isEmpty then Except.ok (MatchResult.from_unmatched segs, bl)
    else match_once_loop env f opts segs none bl
termination_by structural fuel

/-- The option iteration of `_match_once`: first complete match wins,
else keep the partial with strictly greater raw length (first on ties). -/
def match_once_loop (env : PEnv) (fuel : Nat) (opts : List Grammar) (segs : List Segment)
    (best : Option MatchResult) (bl : Blacklist) : Res (MatchResult × Blacklist) :=
  match fuel with
  | 0 => Except.error PErr.fuelOut
  | Nat.succ f =>
    match opts with
    | [] =>
      (match best with
      | some b => Except.ok (b, bl)
      | none => Except.ok (MatchResult.from_unmatched segs, bl))
    | o :: rest => do
      let (m, bl1) ← matchG env f o segs bl
      if m.is_complete then Except.ok (m, bl1)
      else if m.has_match then
        let best' :=
          match best with
          | some b =>
            if m.raw_matched_len > b.raw_matched_len then some m else some b
          | none => some m
        match_once_loop env f rest segs best' bl1
      else match_once_loop env f rest segs best bl1
termination_by structural fuel

/-- `_prune_options` (grammar.py lines 767-829): keep non-simple elements
unconditionally; keep a simple element iff `pruneSimpleKeep` accepts one
of its advertised options. -/
def prune_options (env : PEnv) (fuel : Nat) (elems : List Grammar) (strBuff : List String) :
    Res (List Grammar) :=
  match fuel with
  | 0 => Except.error PErr.fuelOut
  | Nat.succ f =>
    match elems with
    | [] => Except.ok []
    | e :: rest => do
      let s ← simpleG env f e
      let keep ←
        (match s with
        | none => Except.ok true
        | some opts => pruneSimpleKeep strBuff opts)
      let restKept ← prune_options env f rest strBuff
      Except.ok (if keep then e :: restKept else restKept)
termination_by structural fuel

/-- The element loop of `Sequence.match` (grammar.py lines 1110-1192):
emit enabled meta elements, handle exhaustion against
optional-or-meta tails, otherwise match each element on the gap-trimmed
middle, with the `check_still_complete` assertion. -/
def sequence_loop (env : PEnv) (fuel : Nat) (origSegs : List Segment) (rem : List Grammar)
    (allowGaps : Bool) (acc unm : List Segment) (bl : Blacklist) :
    Res (MatchResult × Blacklist) :=
  match fuel with
  | 0 => Except.error PErr.fuelOut
  | Nat.succ f =>
    match rem with
    | [] => Except.ok (⟨acc, unm⟩, bl)
    | e :: rest =>
      if e.is_meta then
        if metaEnabled env e then
          match acc.getLast? with
          | some lastM =>
            sequence_loop env f origSegs rest allowGaps
              (acc ++ [mkMetaSeg e.metaKind lastM.get_end_pos_marker]) unm bl
          | none =>
            match unm with
            | u0 :: _ =>
              sequence_loop env f origSegs rest allowGaps
                (acc ++ [mkMetaSeg e.metaKind u0.pos]) unm bl
            | [] => Except.error PErr.indexErr
        else sequence_loop env f origSegs rest allowGaps acc unm bl
      else
        let (preNc, midSeg, postNc) :=
          if allowGaps then trim_non_code unm else ([], unm, [])
        if (preNc ++ midSeg ++ postNc).isEmpty then
          if (e :: rest).all (fun x => x.is_optional || x.is_meta) then
            match acc.getLast? with
            | none => Except.error PErr.indexErr
            | some lastM =>
              let metas :=
                ((e :: rest).filter (fun x => x.is_meta && metaEnabled env x)).map
                  (fun x => mkMetaSeg x.metaKind lastM.get_end_pos_marker)
              Except.ok (⟨acc ++ metas, unm⟩, bl)
          else Except.ok (MatchResult.from_unmatched origSegs, bl)
        else do
          let (em, bl1) ← matchG env f e midSeg bl
          if em.has_match then
            let acc1 := acc ++ preNc ++ em.matched_segments
            let unm1 := em.unmatched_segments ++ postNc
            if check_still_complete origSegs acc1 unm1 then
              sequence_loop env f origSegs rest allowGaps acc1 unm1 bl1
            else Except.error (PErr.runtimeErr "Dropped elements in sequence matching!")
          else
            if e.is_optional then sequence_loop env f origSegs rest allowGaps acc unm bl1
            else Except.ok (MatchResult.from_unmatched origSegs, bl1)
termination_by structural fuel

/-- `greedy_match` (grammar.py lines 984-1076): bracket-sensitive scan for
a terminator, the `enforce_whitespace_preceeding_terminator` re-scan, and
the trim of trailing non-code off the matched portion.  NB: when a
terminator is rejected for lack of preceding whitespace, line 1048
*assigns* `seg_bank = pre + mat.matched_segments` - it does not append -
so a previously banked chunk is discarded; the recursion below reproduces
that overwrite. -/
def greedy_loop (env : PEnv) (fuel : Nat) (origSegs : List Segment) (ms : List Grammar)
    (enforceWs includeTerm allowGaps : Bool) (segBank segBuf : List Segment)
    (bl : Blacklist) : Res (MatchResult × Blacklist) :=
  match fuel with
  | 0 => Except.error PErr.fuelOut
  | Nat.succ f => do
    let (pre, mat, _, bl1) ←
      bracket_sensitive_look_ahead_match env f ms segBuf bl allowGaps
    if mat.has_match then do
      let allow ←
        (if enforceWs then do
          let fw ← firstNonMetaIsWs mat.matched_segments
          if fw then Except.ok true
          else Except.ok (preNonMetaIsWsOrStartRev pre.reverse)
        else Except.ok true)
      if !allow then
        greedy_loop env f origSegs ms enforceWs includeTerm allowGaps
          (pre ++ mat.matched_segments) mat.unmatched_segments bl1
      else
        if includeTerm then
          Except.ok (⟨segBank ++ pre ++ mat.matched_segments, mat.unmatched_segments⟩, bl1)
        else
          let (leadingNc, preSegMid, trailingNc) := trim_non_code (segBank ++ pre)
          Except.ok (⟨leadingNc ++ preSegMid, trailingNc ++ mat.all_segments⟩, bl1)
    else Except.ok (MatchResult.from_matched origSegs, bl1)
termination_by structural fuel

/-- The delimiter-hunting loop of `Delimited.match` (grammar.py lines
1261-1446). -/
def delimited_loop (env : PEnv) (fuel : Nat) (origSegs : List Segment)
    (elems : List Grammar) (delim : Grammar) (termO : Option Grammar)
    (allowTrailing : Bool) (minD : Option Nat) (allowGaps : Bool) (acc : List Segment)
    (nDelims : Nat) (segBuf : List Segment) (bl : Blacklist) :
    Res (MatchResult × Blacklist) :=
  match fuel with
  | 0 => Except.error PErr.fuelOut
  | Nat.succ f =>
    if segBuf.isEmpty then
      if allowTrailing && minDelimsOkTrailing minD nDelims then
        Except.ok (MatchResult.from_matched acc, bl)
      else Except.ok (MatchResult.from_unmatched origSegs, bl)
    else do
      let matchers := [delim] ++ (match termO with | some t => [t] | none => [])
      let (preContent, dMatch, mo, bl1) ←
        bracket_sensitive_look_ahead_match env f matchers segBuf bl false
      let preContentLen := preContent.length
      if dMatch.has_match then
        let nDelims1 := if optIs mo (some delim) then nDelims + 1 else nDelims
        let (preNc, preContent1, postNc) :=
          if allowGaps then trim_non_code preContent else ([], preContent, [])
        if preContent1.isEmpty then Except.ok (MatchResult.from_unmatched origSegs, bl1)
        else do
          let (emO, bl2) ← delimited_content_loop env f elems preContent1 allowGaps bl1
          match emO with
          | none => Except.ok (MatchResult.from_unmatched origSegs, bl2)
          | some em =>
            let acc1 := acc ++ preNc ++ em.matched_segments ++ postNc
            if optIs mo (some delim) then
              delimited_loop env f origSegs elems delim termO allowTrailing minD allowGaps
                (acc1 ++ dMatch.matched_segments) nDelims1 dMatch.unmatched_segments bl2
            else if optIs mo termO then
              if minDelimsShort minD nDelims then
                Except.ok (MatchResult.from_unmatched origSegs, bl2)
              else Except.ok (⟨acc1, segBuf.drop preContentLen⟩, bl2)
            else
              Except.error
                (PErr.runtimeErr
                  "Matched on neither delimiter nor terminator")
      else
        if minDelimsShort minD nDelims then
          Except.ok (MatchResult.from_unmatched origSegs, bl1)
        else
          let (preTermNc, segBuf1, postTermNc) :=
            if allowGaps then trim_non_code segBuf else ([], segBuf, [])
          do
          let (mat, _, bl2) ←
            longest_code_only_sensitive_match env f elems segBuf1 bl1 allowGaps
          if mat.has_match then
            if !mat.unmatched_segments.isEmpty then
              Except.ok
                (⟨acc ++ preTermNc ++ mat.matched_segments,
                  mat.unmatched_segments ++ postTermNc⟩, bl2)
            else
              Except.ok
                (MatchResult.from_matched
                  (acc ++ preTermNc ++ mat.matched_segments ++ postTermNc), bl2)
          else
            if allowTrailing then
              Except.ok (⟨acc, preTermNc ++ segBuf1 ++ postTermNc⟩, bl2)
            else Except.ok (MatchResult.from_unmatched origSegs, bl2)
termination_by structural fuel

/-- grammar.py lines 1322-1386: try each Delimited element on the
pre-delimiter content with `_code_only_sensitive_match`, accepting only a
complete match; `none` is the for-else "none of them matched". -/
def delimited_content_loop (env : PEnv) (fuel : Nat) (opts : List Grammar)
    (content : List Segment) (allowGaps : Bool) (bl : Blacklist) :
    Res (Option MatchResult × Blacklist) :=
  match fuel with
  | 0 => Except.error PErr.fuelOut
  | Nat.succ f =>
    match opts with
    | [] => Except.ok (none, bl)
    | e :: rest => do
      let (m, bl1) ← code_only_sensitive_match env f e content bl allowGaps
      if m.is_complete then Except.ok (some m, bl1)
      else delimited_content_loop env f rest content allowGaps bl1
termination_by structural fuel

end

/-! ## Concrete fixtures for evaluating the embedding -/

/-- A small dialect: round/square bracket matchers (the four names the
bracket-sensitive scanner resolves), an identifier matcher and a comma
keyword. -/
def dialect0 : Dialect :=
  ⟨[("StartBracketSegment", .tok "(" false), ("EndBracketSegment", .tok ")" false),
    ("StartSquareBracketSegment", .tok "[" false),
    ("EndSquareBracketSegment", .tok "]" false),
    ("IDENT", .tokType "ident" false), ("COMMA", .tok "," false)]⟩

/-- Environment with `dialect0` and no enabled meta kinds. -/
def env0 : PEnv := ⟨dialect0, []⟩

/-- Environment with `dialect0` and the "indent" meta kind enabled. -/
def envIndent : PEnv := ⟨dialect0, ["indent"]⟩

def segWs : Segment := ⟨31, " ", false, false, "whitespace", 0⟩
def segA : Segment := ⟨1, "A", true, false, "word", 0⟩
def segB : Segment := ⟨2, "B", true, false, "word", 1⟩
def segX : Segment := ⟨12, "X", true, false, "ident", 1⟩
def segY : Segment := ⟨15, "Y", true, false, "ident", 4⟩
def segLp : Segment := ⟨11, "(", true, false, "start_bracket", 0⟩
def segRp : Segment := ⟨13, ")", true, false, "end_bracket", 2⟩
def segExtra : Segment := ⟨14, "EXTRA", true, false, "word", 3⟩
def segComma1 : Segment := ⟨22, ",", true, false, "comma", 2⟩
def segComma2 : Segment := ⟨24, ",", true, false, "comma", 5⟩
def segWs1 : Segment := ⟨32, " ", false, false, "whitespace", 1⟩
def segWs2 : Segment := ⟨33, " ", false, false, "whitespace", 3⟩
def segLp2 : Segment := ⟨41, "(", true, false, "start_bracket", 0⟩
def segX2 : Segment := ⟨42, "X", true, false, "ident", 2⟩
def segRp2 : Segment := ⟨43, ")", true, false, "end_bracket", 4⟩
def segExtra2 : Segment := ⟨44, "EXTRA", true, false, "word", 5⟩
def segWsEnd : Segment := ⟨34, " ", false, false, "whitespace", 3⟩

/-- A non-simple matcher used in look-ahead tie-break scenarios. -/
def gGreedyB : Grammar := .greedyUntil [.tok "B" false] false true false

/-- Remove (inserted) meta segments from a sequence. -/
def eraseMeta (l : List Segment) : List Segment := l.filter (fun s => !s.is_meta)

/-- Compare a look-ahead result against expected components, using
structural grammar equality for the returned matcher. -/
def lookIs (r : Res (List Segment × MatchResult × Option Grammar × Blacklist))
    (pre : List Segment) (m : MatchResult) (moExp : Option Grammar) (bl : Blacklist) :
    Bool :=
  match r with
  | .ok (p, mm, mo, b) => p == pre && mm == m && grammarOptBeq mo moExp && b == bl
  | .error _ => false

/-! ## Helper lemmas -/

theorem dropWhile_noncode_eq_nil (S : List Segment)
    (h : ∀ s ∈ S, s.is_code = false) : S.dropWhile (fun s => !s.is_code) = [] := by
  induction S with
  | nil => rfl
  | cons a t ih =>
    have ha : a.is_code = false := h a (List.mem_cons_self a t)
    rw [List.dropWhile_cons]
    simp only [ha, Bool.not_false, if_true]
    exact ih (fun s hs => h s (List.mem_cons_of_mem a hs))

theorem blacklistCheck_mark_self (bl : Blacklist) (n : String) (fp : List Nat) :
    blacklistCheck (blacklistMark bl n fp) n fp = true := by
  simp [blacklistCheck, blacklistMark]

theorem res_bind_ok {α β : Type} (a : α) (f : α → Res β) :
    (Except.ok a >>= f : Res β) = f a := rfl

theorem res_bind_error {α β : Type} (e : PErr) (f : α → Res β) :
    ((Except.error e : Res α) >>= f) = Except.error e := rfl

/-! ## Claim theorems -/

/-- C1: The claim states that for every concrete combinator and input,
matched ++ unmatched of the returned MatchResult equals the input after
removing inserted `is_meta` segments.  The code violates this:
`StartsWith.match` with `allow_gaps` matches its target on
`segments[first_code_idx:]` and never re-attaches the leading non-code
segments (grammar.py lines 1471-1509; the comment at line 1496 admits
"We still need to deal with any non-code segments at the start").  On
`[whitespace, X]` with target `X` it returns matched=[X], unmatched=[],
dropping the whitespace, so the meta-erased concatenation differs from
the input.  (Sequence itself enforces the invariant via
`check_still_complete`, which is why this is a code bug rather than a
spec error.) -/
theorem C1_startsWith_drops_leading_noncode :
    matchG env0 20 (.startsWith (.tok "X" false) none false false true false)
      [segWs, segX] [] = Except.ok (⟨[segX], []⟩, []) ∧
    eraseMeta ([segX] ++ ([] : List Segment)) ≠ eraseMeta [segWs, segX] := by
  constructor
  · decide
  · decide

/-- C3 counterexample: AnyNumberOf with `max_times=0` does NOT return
`from_empty()` on every input: on the non-empty input `[X]` with a
never-matching element it returns `from_unmatched([X])` (the guard
`if self.max_times and ...` at grammar.py line 901 treats `0` as falsy,
so the bound is ignored). -/
theorem C3_counterexample :
    matchG env0 9 (.anyNum [.nothing false] 0 (some 0) none true false) [segX] [] =
      Except.ok (MatchResult.from_unmatched [segX], []) ∧
    MatchResult.from_unmatched [segX] ≠ MatchResult.from_empty := by
  constructor
  · decide
  · decide

/-- C3 (amended): because `max_times` is tested for Python truthiness
(grammar.py line 901), `max_times=0` behaves exactly like `max_times`
unset - matching is unbounded rather than forced empty; `from_empty()`
is returned (only) on empty input. -/
theorem C3_amended_maxtimes_zero :
    (∀ (env : PEnv) (fuel : Nat) (elems : List Grammar) (minT : Nat)
      (ex : Option Grammar) (gaps o : Bool) (S : List Segment) (bl : Blacklist),
      matchG env fuel (.anyNum elems minT (some 0) ex gaps o) S bl =
        matchG env fuel (.anyNum elems minT none ex gaps o) S bl) ∧
    (∀ (env : PEnv) (f : Nat) (elems : List Grammar) (minT : Nat) (gaps o : Bool)
      (bl : Blacklist),
      matchG env (f + 2) (.anyNum elems minT (some 0) none gaps o) [] bl =
        Except.ok (MatchResult.from_empty, bl)) := by
  constructor
  · intro env fuel elems minT ex gaps o S bl
    cases fuel with
    | zero => rfl
    | succ f => rfl
  · intro env f elems minT gaps o bl
    show any_number_loop env (f + 1) elems minT 0 gaps [] [] 0 bl =
      Except.ok (MatchResult.from_empty, bl)
    simp [any_number_loop, MatchResult.from_empty, MatchResult.from_unmatched, ite_self]

/-- C5: The claim says that whenever the remaining input is exhausted and
only optional-or-meta elements remain, `Sequence.match` returns a truthy
success; in particular for an all-optional Sequence on input it exhausts.
The code violates this on empty input with nothing yet matched: the
success branch unconditionally evaluates
`matched_segments.matched_segments[-1]` for a meta position anchor
(grammar.py line 1146), which raises IndexError when nothing has been
matched - e.g. `Sequence(optional IDENT).match([])` (first conjunct).
When at least one segment has already been matched the claimed behaviour
does hold, both with a plain optional tail (second conjunct, truthy
result, third conjunct) and with the remaining enabled meta segments
emitted at the current position (fourth conjunct). -/
theorem C5_sequence_exhausted_optional :
    matchG env0 9 (.sequence [.ref "IDENT" true] true false) [] [] =
      Except.error PErr.indexErr ∧
    matchG env0 30 (.sequence [.tok "X" false, .ref "IDENT" true] true false) [segX] [] =
      Except.ok (⟨[segX], []⟩, []) ∧
    (⟨[segX], []⟩ : MatchResult).has_match = true ∧
    matchG envIndent 30 (.sequence [.tok "X" false, .metaSeg "indent" false] true false)
      [segX] [] = Except.ok (⟨[segX, mkMetaSeg "indent" 1], []⟩, []) := by
  refine ⟨by decide, by decide, by decide, by decide⟩

/-- C7 counterexample: the claim's universal sentence - "with everything
after the close bracket unmatched" - is false of the code.  On
`[LPAREN, X, RPAREN, WS]` the interior `[X]` matches the Sequence body
completely, but `_look_ahead_match` absorbs an all-non-code unmatched
tail into the match it returns (grammar.py lines 367-370), so the
end-bracket match swallows the whitespace after the close bracket and
`Bracketed.match` returns it *matched*, positioned after the close
bracket, with unmatched empty - not unmatched `[WS]` as the claimed
shape requires. -/
theorem C7_counterexample_noncode_tail_absorbed :
    matchG env0 99 (.bracketed [.ref "IDENT" false] false true false)
      [segLp, segX, segRp, segWsEnd] [] =
      Except.ok (⟨[segLp, mkIndent 1, segX, mkDedent 1, segRp, segWsEnd], []⟩, []) ∧
    (⟨[segLp, mkIndent 1, segX, mkDedent 1, segRp, segWsEnd], []⟩ : MatchResult) ≠
      (⟨[segLp, mkIndent 1, segX, mkDedent 1, segRp], [segWsEnd]⟩ : MatchResult) := by
  constructor
  · decide
  · decide

/-- C7 (amended): Bracketed assembly (grammar.py lines 1554-1662).
First conjunct (universal, complete interior): for every Bracketed
grammar and input on which the opening bracket matches, the
bracket-sensitive scan finds the closing bracket, and the gap-trimmed
interior is non-empty and matches the Sequence body completely,
`Bracketed.match` returns matched segments in the order
open-bracket match + leading non-code + Indent (at the start position of
the first content segment) + content + Dedent (at the end position of
the last) + trailing non-code + end-bracket match, with the end-bracket
match's unmatched remainder as the overall unmatched.  What follows the
close bracket is therefore unmatched exactly when the scan left it
unmatched; an all-non-code tail is absorbed into the end-bracket match
instead (the counterexample), which is the only change forced on the
original claim.  Second conjunct (universal): if the interior matches
only partially or not at all, the whole input is returned unmatched.
The remaining conjuncts evaluate the claim's concrete instances: on
`[LPAREN, X, RPAREN, EXTRA]` (code after the close bracket) matched is
`[LPAREN, Indent, X, Dedent, RPAREN]` with unmatched `[EXTRA]`; with
interior whitespace the non-code stays outside the Indent/Dedent pair;
and on `[LPAREN, X, Y, RPAREN]` the partial interior returns the whole
input unmatched. -/
theorem C7_bracketed_assembly :
    (∀ (env : PEnv) (f : Nat) (elems : List Grammar) (gaps opt : Bool)
      (segs : List Segment) (bl bl1 bl2 bl3 : Blacklist) (startM endM : MatchResult)
      (contentSegs preNc mid postNc : List Segment) (mo : Option Grammar)
      (contentMatch : MatchResult) (m0 : Segment) (mrest : List Segment),
      code_only_sensitive_match env f (.ref "StartBracketSegment" false) segs bl gaps =
        Except.ok (startM, bl1) →
      startM.has_match = true →
      bracket_sensitive_look_ahead_match env f [Grammar.ref "EndBracketSegment" false]
          startM.unmatched_segments bl1 gaps = Except.ok (contentSegs, endM, mo, bl2) →
      endM.has_match = true →
      contentSegs.isEmpty = false →
      (if gaps then trim_non_code contentSegs else ([], contentSegs, [])) =
        (preNc, mid, postNc) →
      mid.isEmpty = false →
      matchG env f (.sequence elems gaps opt) mid bl2 = Except.ok (contentMatch, bl3) →
      contentMatch.is_complete = true →
      contentMatch.matched_segments = m0 :: mrest →
      matchG env (f + 1) (.bracketed elems false gaps opt) segs bl =
        Except.ok
          (⟨startM.matched_segments ++ preNc ++ [mkIndent m0.get_start_pos_marker] ++
              contentMatch.matched_segments ++
              [mkDedent
                ((contentMatch.matched_segments.getLast?).getD
                  m0).get_end_pos_marker] ++
              postNc ++ endM.matched_segments,
            endM.unmatched_segments⟩, bl3)) ∧
    (∀ (env : PEnv) (f : Nat) (elems : List Grammar) (gaps opt : Bool)
      (segs : List Segment) (bl bl1 bl2 bl3 : Blacklist) (startM endM : MatchResult)
      (contentSegs preNc mid postNc : List Segment) (mo : Option Grammar)
      (contentMatch : MatchResult),
      code_only_sensitive_match env f (.ref "StartBracketSegment" false) segs bl gaps =
        Except.ok (startM, bl1) →
      startM.has_match = true →
      bracket_sensitive_look_ahead_match env f [Grammar.ref "EndBracketSegment" false]
          startM.unmatched_segments bl1 gaps = Except.ok (contentSegs, endM, mo, bl2) →
      endM.has_match = true →
      contentSegs.isEmpty = false →
      (if gaps then trim_non_code contentSegs else ([], contentSegs, [])) =
        (preNc, mid, postNc) →
      mid.isEmpty = false →
      matchG env f (.sequence elems gaps opt) mid bl2 = Except.ok (contentMatch, bl3) →
      contentMatch.is_complete = false →
      matchG env (f + 1) (.bracketed elems false gaps opt) segs bl =
        Except.ok (MatchResult.from_unmatched segs, bl3)) ∧
    matchG env0 99 (.bracketed [.ref "IDENT" false] false true false)
      [segLp, segX, segRp, segExtra] [] =
      Except.ok (⟨[segLp, mkIndent 1, segX, mkDedent 1, segRp], [segExtra]⟩, []) ∧
    matchG env0 99 (.bracketed [.ref "IDENT" false] false true false)
      [segLp2, segWs1, segX2, segWs2, segRp2, segExtra2] [] =
      Except.ok
        (⟨[segLp2, segWs1, mkIndent 2, segX2, mkDedent 2, segWs2, segRp2],
          [segExtra2]⟩, []) ∧
    matchG env0 99 (.bracketed [.ref "IDENT" false] false true false)
      [segLp, segX, segY, segRp] [] =
      Except.ok (MatchResult.from_unmatched [segLp, segX, segY, segRp], []) := by
  refine ⟨?_, ?_, by decide, by decide, by decide⟩
  · intro env f elems gaps opt segs bl bl1 bl2 bl3 startM endM contentSegs preNc mid
      postNc mo contentMatch m0 mrest hstart hsm hscan hem hcs htrim hmid hcm hcc hnz
    have hcs' : contentSegs ≠ [] := by simpa using hcs
    have hmid' : mid ≠ [] := by simpa using hmid
    simp [matchG, hstart, hsm, hscan, hem, hcs', htrim, hmid', hcm, hcc, hnz,
      res_bind_ok]
  · intro env f elems gaps opt segs bl bl1 bl2 bl3 startM endM contentSegs preNc mid
      postNc mo contentMatch hstart hsm hscan hem hcs htrim hmid hcm hcc
    have hcs' : contentSegs ≠ [] := by simpa using hcs
    have hmid' : mid ≠ [] := by simpa using hmid
    simp [matchG, hstart, hsm, hscan, hem, hcs', htrim, hmid', hcm, hcc, res_bind_ok]

/-- C7 witness: both universal conjuncts of `C7_bracketed_assembly`
instantiated on the claim's concrete inputs with every hypothesis
discharged by evaluation: the complete-interior case on
`[LPAREN, X, RPAREN, EXTRA]` and the partial-interior case on
`[LPAREN, X, Y, RPAREN]`. -/
theorem C7_witness :
    matchG env0 99 (.bracketed [.ref "IDENT" false] false true false)
      [segLp, segX, segRp, segExtra] [] =
      Except.ok
        (⟨[segLp] ++ [] ++ [mkIndent 1] ++ [segX] ++ [mkDedent 1] ++ [] ++ [segRp],
          [segExtra]⟩, []) ∧
    matchG env0 99 (.bracketed [.ref "IDENT" false] false true false)
      [segLp, segX, segY, segRp] [] =
      Except.ok (MatchResult.from_unmatched [segLp, segX, segY, segRp], []) :=
  ⟨C7_bracketed_assembly.1 env0 98 [.ref "IDENT" false] true false
      [segLp, segX, segRp, segExtra] [] [] [] [] ⟨[segLp], [segX, segRp, segExtra]⟩
      ⟨[segRp], [segExtra]⟩ [segX] [] [segX] []
      (some (.ref "EndBracketSegment" false)) ⟨[segX], []⟩ segX []
      (by decide) (by decide) rfl (by decide) (by decide) (by decide) (by decide)
      (by decide) (by decide) rfl,
   C7_bracketed_assembly.2.1 env0 98 [.ref "IDENT" false] true false
      [segLp, segX, segY, segRp] [] [] [] [] ⟨[segLp], [segX, segY, segRp]⟩
      ⟨[segRp], []⟩ [segX, segY] [] [segX, segY] []
      (some (.ref "EndBracketSegment" false)) ⟨[segX], [segY]⟩
      (by decide) (by decide) rfl (by decide) (by decide) (by decide) (by decide)
      (by decide) (by decide)⟩

/-- C8: Delimited and trailing delimiters.  First conjunct (the general
statement, on the loop of `Delimited.match`): when the remaining buffer
is exhausted - which happens exactly when the input ends immediately
after a consumed delimiter - the accumulated match is returned as
successful iff `allow_trailing` is set and the `min_delimiters`
requirement (when set) is met, and otherwise the whole original input is
returned unmatched (grammar.py lines 1266-1277).  Second conjunct: the
claim's concrete instance - `Delimited(Ref IDENT, delimiter=Ref COMMA,
allow_trailing=false)` on `[X, COMMA, Y, COMMA]` returns unmatched over
the whole input. -/
theorem C8_delimited_trailing :
    (∀ (env : PEnv) (f : Nat) (orig : List Segment) (elems : List Grammar)
      (delim : Grammar) (termO : Option Grammar) (allowTrailing : Bool)
      (minD : Option Nat) (gaps : Bool) (acc : List Segment) (n : Nat) (bl : Blacklist),
      delimited_loop env (f + 1) orig elems delim termO allowTrailing minD gaps acc n
        [] bl =
        if allowTrailing && minDelimsOkTrailing minD n then
          Except.ok (MatchResult.from_matched acc, bl)
        else Except.ok (MatchResult.from_unmatched orig, bl)) ∧
    matchG env0 99
      (.delimited [.ref "IDENT" false] (.ref "COMMA" false) false none none true false)
      [segX, segComma1, segY, segComma2] [] =
      Except.ok (MatchResult.from_unmatched [segX, segComma1, segY, segComma2], []) := by
  constructor
  · intro env f orig elems delim termO allowTrailing minD gaps acc n bl
    simp only [delimited_loop, List.isEmpty_nil, if_true]
  · decide

/-- C4: Winner selection in `_look_ahead_match` between a non-simple
candidate and the best simple candidate (grammar.py lines 420-440).
First conjunct: the code's decision (`lookAheadWinner`, the literal
translation of the three-way condition) prefers the non-simple candidate
exactly when (1) its `pre_segments` is shorter (earlier start), or (2) on
a tie of start, its match is longer, or (3) on a tie of both, its matcher
comes earlier in the input matcher list.  The remaining conjuncts run the
full `_look_ahead_match` on concrete inputs exercising each rule: rule 1
(non-simple starts earlier), rule 2 (same start, non-simple longer), and
rule 3 both ways (same start and length: the candidate whose matcher is
earlier in the list wins, whether it is the non-simple or the simple
one). -/
theorem C4_look_ahead_winner_selection :
    (∀ (ms : List Grammar) (preB : List Segment) (mat : MatchResult)
      (mo : Option Grammar) (bp : List Segment) (bm : MatchResult) (bg : Grammar),
      lookAheadWinner ms preB mat mo bp bm bg = true ↔
        (preB.length < bp.length ∨
          (preB.length = bp.length ∧ bm.mlen < mat.mlen) ∨
          (preB.length = bp.length ∧ mat.mlen = bm.mlen ∧
            grammarIndex ms mo < grammarIndex ms (some bg)))) ∧
    lookIs (look_ahead_match env0 30 [.tok "B" false, .anything false] [segA, segB] [] true)
      [] ⟨[segA, segB], []⟩ (some (.anything false)) [] = true ∧
    lookIs (look_ahead_match env0 30 [.tok "A" false, .anything false] [segA, segB] [] true)
      [] ⟨[segA, segB], []⟩ (some (.anything false)) [] = true ∧
    lookIs (look_ahead_match env0 99 [gGreedyB, .tok "A" false] [segA, segB] [] true)
      [] ⟨[segA], [segB]⟩ (some gGreedyB) [] = true ∧
    lookIs (look_ahead_match env0 99 [.tok "A" false, gGreedyB] [segA, segB] [] true)
      [] ⟨[segA], [segB]⟩ (some (.tok "A" false)) [] = true := by
  refine ⟨?_, by decide, by decide, by decide, by decide⟩
  intro ms preB mat mo bp bm bg
  simp only [lookAheadWinner, Bool.or_eq_true, Bool.and_eq_true, decide_eq_true_eq,
    beq_iff_eq]
  omega

/-- C9: `_code_only_sensitive_match` with `allow_gaps=True` on an input
that is empty or all non-code returns `from_unmatched` over the original
input without invoking the inner matcher: the leading-trim loop
exhausts the buffer and returns early (grammar.py lines 144-152).  The
theorem holds for every matcher `g`, every fuel (including `f = 0`,
where any invocation of the inner matcher would necessarily produce
`fuelOut` instead of this success), and leaves the blacklist untouched -
which together witness that the matcher is never consulted. -/
theorem C9_code_only_noncode_unmatched :
    ∀ (env : PEnv) (f : Nat) (g : Grammar) (S : List Segment) (bl : Blacklist),
      (∀ s ∈ S, s.is_code = false) →
      code_only_sensitive_match env (f + 1) g S bl true =
        Except.ok (MatchResult.from_unmatched S, bl) := by
  intro env f g S bl h
  have hd := dropWhile_noncode_eq_nil S h
  simp [code_only_sensitive_match, hd]

/-- C9 witness: the all-non-code instance `[whitespace]` at fuel 1 (so
the inner matcher could not even have been invoked without failing). -/
theorem C9_witness :
    code_only_sensitive_match env0 1 (.nothing false) [segWs] [] true =
      Except.ok (MatchResult.from_unmatched [segWs], []) :=
  C9_code_only_noncode_unmatched env0 0 (.nothing false) [segWs] []
    (by decide)

/-- C10: `StartsWith.match`.  First conjunct: with `allow_gaps=False` it
raises NotImplementedError on every input (grammar.py lines 1512-1515).
Second conjunct: with `allow_gaps=True`, an input with no code segments
(the for-else at lines 1473-1481) returns `from_unmatched` over the whole
input. -/
theorem C10_startsWith_gaps :
    (∀ (env : PEnv) (f : Nat) (target : Grammar) (termO : Option Grammar)
      (it ews o : Bool) (S : List Segment) (bl : Blacklist),
      matchG env (f + 1) (.startsWith target termO it ews false o) S bl =
        Except.error PErr.notImplementedErr) ∧
    (∀ (env : PEnv) (f : Nat) (target : Grammar) (termO : Option Grammar)
      (it ews o : Bool) (S : List Segment) (bl : Blacklist),
      (∀ s ∈ S, s.is_code = false) →
      matchG env (f + 1) (.startsWith target termO it ews true o) S bl =
        Except.ok (MatchResult.from_unmatched S, bl)) := by
  constructor
  · intro env f target termO it ews o S bl
    rfl
  · intro env f target termO it ews o S bl h
    have hd := dropWhile_noncode_eq_nil S h
    simp [matchG, hd]

/-- C10 witness: both conjuncts at concrete inputs. -/
theorem C10_witness :
    matchG env0 1 (.startsWith (.tok "X" false) none false false false false)
      [segX] [] = Except.error PErr.notImplementedErr ∧
    matchG env0 1 (.startsWith (.tok "X" false) none false false true false)
      [segWs] [] = Except.ok (MatchResult.from_unmatched [segWs], []) :=
  ⟨C10_startsWith_gaps.1 env0 0 (.tok "X" false) none false false false [segX] [],
   C10_startsWith_gaps.2 env0 0 (.tok "X" false) none false false false [segWs] []
    (by decide)⟩

/-- C2: Ref's negative memoization (grammar.py lines 649-692).  First
conjunct (short-circuit): if the referent resolves and the fingerprint
`(name, ids of S)` is already blacklisted, `Ref.match` returns
`from_unmatched(S)` with the blacklist unchanged - for every referent and
every fuel, including fuel 1 where any invocation of the referent would
have produced `fuelOut` instead, witnessing that the referent is not
invoked.  Second conjunct (recording): whenever `Ref.match` returns an
unmatched result (empty matched segments), the fingerprint is recorded in
the resulting blacklist - either it was already there (short-circuit
path) or `blacklist.mark` is applied after the referent's failure. -/
theorem C2_ref_blacklist_memoization :
    (∀ (f : Nat) (n : String) (o : Bool) (S : List Segment) (env : PEnv)
      (bl : Blacklist) (e : Grammar),
      env.dialect.ref n = some e →
      blacklistCheck bl n (S.map Segment.sid) = true →
      matchG env (f + 1) (.ref n o) S bl =
        Except.ok (MatchResult.from_unmatched S, bl)) ∧
    (∀ (f : Nat) (n : String) (o : Bool) (S : List Segment) (env : PEnv)
      (bl bl' : Blacklist) (r : MatchResult),
      matchG env (f + 1) (.ref n o) S bl = Except.ok (r, bl') →
      r.matched_segments = [] →
      blacklistCheck bl' n (S.map Segment.sid) = true) := by
  constructor
  · intro f n o S env bl e hdial hchk
    simp [matchG, dialectGet, hdial, hchk, res_bind_ok]
  · intro f n o S env bl bl' r hrun hm
    cases hdial : env.dialect.ref n with
    | none => simp [matchG, dialectGet, hdial, res_bind_error] at hrun
    | some e =>
      cases hchk : blacklistCheck bl n (S.map Segment.sid) with
      | true =>
        simp [matchG, dialectGet, hdial, hchk, res_bind_ok] at hrun
        rw [← hrun.2]
        exact hchk
      | false =>
        cases hin : matchG env f e S bl with
        | error err => simp [matchG, dialectGet, hdial, hchk, hin, res_bind_ok, res_bind_error] at hrun
        | ok p =>
          obtain ⟨resp, bl1⟩ := p
          cases hhm : resp.has_match with
          | true =>
            simp [matchG, dialectGet, hdial, hchk, hin, hhm, res_bind_ok] at hrun
            rw [← hrun.1] at hm
            rw [MatchResult.has_match, hm] at hhm
            simp at hhm
          | false =>
            simp [matchG, dialectGet, hdial, hchk, hin, hhm, res_bind_ok] at hrun
            rw [← hrun.2]
            exact blacklistCheck_mark_self bl1 n (S.map Segment.sid)

/-- C2 witness: first conjunct at a blacklisted fingerprint (fuel 1:
returning this result at fuel 1 is only possible without invoking the
referent); second conjunct applied to a concrete failed reference,
whose run marks ("IDENT", [14]). -/
theorem C2_witness :
    matchG env0 1 (.ref "IDENT" false) [segX] [("IDENT", [12])] =
      Except.ok (MatchResult.from_unmatched [segX], [("IDENT", [12])]) ∧
    blacklistCheck [("IDENT", [14])] "IDENT" ([segExtra].map Segment.sid) = true :=
  ⟨C2_ref_blacklist_memoization.1 0 "IDENT" false [segX] env0 [("IDENT", [12])]
    (.tokType "ident" false) rfl (by decide),
   C2_ref_blacklist_memoization.2 8 "IDENT" false [segExtra] env0 []
    [("IDENT", [14])] (MatchResult.from_unmatched [segExtra]) (by decide) rfl⟩

/-- C6 counterexample: the claim's final sentence says that apart from
(i) an end-bracket matched with an empty stack and (ii) input exhausted
with a non-empty stack, every no-match case returns unmatched rather
than raising.  But on `[LPAREN, X]` with matcher `Y` the scan pushes the
bracket, then finds no further bracket *while input (`[X]`) remains* -
neither (i) nor (ii) - and the code still raises the unclosed-bracket
error (grammar.py lines 533-538), carrying the top of the stack. -/
theorem C6_counterexample_instack_nomatch_raises :
    errOf (bracket_sensitive_look_ahead_match env0 30 [.tok "Y" false]
        [segLp, segX] [] true) =
      some (PErr.sqlParse "Couldn't find closing bracket for opening bracket."
        (some segLp)) := by
  decide

/-- C6 (amended): error behaviour of the bracket-sensitive scan loop
(grammar.py lines 499-591).  (1) Exhausting the input with a non-empty
bracket stack raises the unclosed-bracket error carrying the top of the
stack (lines 578-587).  (2) The same unclosed-bracket error is also
raised when, inside a non-empty stack, the scan over the bracket matchers
finds no match even though input remains (lines 533-538).  (3) With an
empty stack, a truthy match on an end-bracket matcher raises the
unexpected-close error carrying the first matched segment (lines
564-569).  (4) With an empty stack and no match, the loop returns a
friendly unmatched result over the original input without raising (lines
574-577). -/
theorem C6_bracket_scan_errors :
    (∀ (env : PEnv) (f : Nat) (orig : List Segment) (allMs sbs ebs : List Grammar)
      (preB : List Segment) (top : Segment) (rest : List Segment) (bl : Blacklist)
      (gaps : Bool),
      bracket_loop env (f + 1) orig allMs sbs ebs preB (top :: rest) [] bl gaps =
        Except.error
          (PErr.sqlParse "Couldn't find closing bracket for opening bracket."
            (some top))) ∧
    (∀ (env : PEnv) (f : Nat) (orig : List Segment) (allMs sbs ebs : List Grammar)
      (preB : List Segment) (top : Segment) (rest : List Segment) (b0 : Segment)
      (bRest : List Segment) (bl bl1 : Blacklist) (pre : List Segment)
      (m : MatchResult) (mo : Option Grammar) (gaps : Bool),
      look_ahead_match env f (sbs ++ ebs) (b0 :: bRest) bl gaps =
        Except.ok (pre, m, mo, bl1) →
      m.has_match = false →
      bracket_loop env (f + 1) orig allMs sbs ebs preB (top :: rest) (b0 :: bRest)
          bl gaps =
        Except.error
          (PErr.sqlParse "Couldn't find closing bracket for opening bracket."
            (some top))) ∧
    (∀ (env : PEnv) (f : Nat) (orig : List Segment) (allMs sbs ebs : List Grammar)
      (preB : List Segment) (b0 : Segment) (bRest : List Segment) (bl bl1 : Blacklist)
      (pre : List Segment) (m : MatchResult) (mo : Option Grammar) (gaps : Bool),
      look_ahead_match env f allMs (b0 :: bRest) bl gaps = Except.ok (pre, m, mo, bl1) →
      m.has_match = true → optMem mo sbs = false → optMem mo ebs = true →
      bracket_loop env (f + 1) orig allMs sbs ebs preB [] (b0 :: bRest) bl gaps =
        Except.error
          (PErr.sqlParse "Found unexpected end bracket!"
            (some m.matched_segments.headI))) ∧
    (∀ (env : PEnv) (f : Nat) (orig : List Segment) (allMs sbs ebs : List Grammar)
      (preB : List Segment) (b0 : Segment) (bRest : List Segment) (bl bl1 : Blacklist)
      (pre : List Segment) (m : MatchResult) (mo : Option Grammar) (gaps : Bool),
      look_ahead_match env f allMs (b0 :: bRest) bl gaps = Except.ok (pre, m, mo, bl1) →
      m.has_match = false →
      bracket_loop env (f + 1) orig allMs sbs ebs preB [] (b0 :: bRest) bl gaps =
        Except.ok ([], MatchResult.from_unmatched orig, none, bl1)) := by
  refine ⟨?_, ?_, ?_, ?_⟩
  · intro env f orig allMs sbs ebs preB top rest bl gaps
    rfl
  · intro env f orig allMs sbs ebs preB top rest b0 bRest bl bl1 pre m mo gaps hla hm
    simp [bracket_loop, hla, hm, res_bind_ok]
  · intro env f orig allMs sbs ebs preB b0 bRest bl bl1 pre m mo gaps hla hm hsb heb
    simp [bracket_loop, hla, hm, hsb, heb, res_bind_ok]
  · intro env f orig allMs sbs ebs preB b0 bRest bl bl1 pre m mo gaps hla hm
    simp [bracket_loop, hla, hm, res_bind_ok]

/-- C6 witness: each part of `C6_bracket_scan_errors` at a concrete
instance: (1) exhausted input with `[LPAREN]` on the stack; (2) stack
`[LPAREN]`, remaining input `[X]`, bracket matchers find nothing; (3)
empty stack, `[RPAREN]` input matched by the end-bracket matcher; (4)
empty stack, matcher `Z` finds nothing on `[X]`. -/
theorem C6_witness :
    bracket_loop env0 1 [] [] [] [] [] [segLp] [] [] true =
      Except.error
        (PErr.sqlParse "Couldn't find closing bracket for opening bracket."
          (some segLp)) ∧
    bracket_loop env0 10 [segX] [] [.tok "(" false] [.tok ")" false] [] [segLp]
        [segX] [] true =
      Except.error
        (PErr.sqlParse "Couldn't find closing bracket for opening bracket."
          (some segLp)) ∧
    bracket_loop env0 10 [segRp] [.tok ")" false] [.tok "(" false] [.tok ")" false]
        [] [] [segRp] [] true =
      Except.error (PErr.sqlParse "Found unexpected end bracket!" (some segRp)) ∧
    bracket_loop env0 10 [segX] [.tok "Z" false] [.tok "(" false] [.tok ")" false]
        [] [] [segX] [] true =
      Except.ok ([], MatchResult.from_unmatched [segX], none, []) :=
  ⟨C6_bracket_scan_errors.1 env0 0 [] [] [] [] [] segLp [] [] true,
   C6_bracket_scan_errors.2.1 env0 9 [segX] [] [.tok "(" false] [.tok ")" false] []
    segLp [] segX [] [] [] [] (MatchResult.from_unmatched [segX]) none true rfl rfl,
   C6_bracket_scan_errors.2.2.1 env0 9 [segRp] [.tok ")" false] [.tok "(" false]
    [.tok ")" false] [] segRp [] [] [] [] ⟨[segRp], []⟩ (some (.tok ")" false)) true
    rfl rfl (by decide) (by decide),
   C6_bracket_scan_errors.2.2.2 env0 9 [segX] [.tok "Z" false] [.tok "(" false]
    [.tok ")" false] [] segX [] [] [] [] (MatchResult.from_unmatched [segX]) none true
    rfl rfl⟩
